import Mathlib

set_option maxRecDepth 8000

/-!
Verification development for the `vectorTutorial` repository: a semantic
similarity demo consisting of a text embedder (`embedder.py`), a pgvector
store (`db.py`), and a demo driver (`main.py`).

The embedder delegates to a pre-trained Hugging Face model; that model and
its tokenizer are external libraries, so they are represented by an abstract
`HFModel` structure whose fields record the architectural facts the code
relies on (hidden size 384, one hidden-state row per token, special tokens
making the tokenizer output nonempty).  The store delegates similarity to
the pgvector `<=>` operator, likewise external, represented by an abstract
distance function.  Everything written in the repository itself (blank-text
fallback, mean pooling, truncation, SQL statement shapes, transaction and
connection handling) is embedded directly from the source.
-/

/-- Whitespace test for one character, matching the characters Python
`str.strip()` removes in the ASCII range (`embedder.py` line 49 uses
`text.strip()`). -/
def pyIsSpace (c : Char) : Bool :=
  c == ' ' || c == '\t' || c == '\n' || c == '\r' || c == '\x0b' || c == '\x0c'

/-- Embeds the Python guard `not text or not text.strip()` of
`TextEmbedder.embed`: true exactly when the string is empty or consists only
of whitespace. -/
def isBlank (s : String) : Bool :=
  s.data.all pyIsSpace

/-- Abstract model of the external Hugging Face tokenizer and transformer
(`AutoTokenizer` / `AutoModel` loaded in `TextEmbedder.__init__`).  The
fields record architectural facts of `sentence-transformers/all-MiniLM-L6-v2`
that the repository code relies on: `hidden ts` is the last hidden state,
one 384-dimensional row per input token, and the tokenizer always emits at
least the special tokens, so its output is nonempty. -/
structure HFModel where
  tokenize : String → List Nat
  padToken : Nat
  hidden : List Nat → List (List ℚ)
  tokenize_ne : ∀ s : String, tokenize s ≠ []
  hidden_len : ∀ ts : List Nat, (hidden ts).length = ts.length
  hidden_dim : ∀ ts : List Nat, ∀ v ∈ hidden ts, v.length = 384

/-- Mean pooling across token positions (`outputs.last_hidden_state.mean(dim=1)`
in `embedder.py`): componentwise unweighted average of the per-token rows. -/
def meanPool (vs : List (List ℚ)) : List ℚ :=
  match vs with
  | [] => []
  | v :: _ => (List.range v.length).map fun i =>
      ((vs.map fun w => w.getD i 0).sum) / (vs.length : ℚ)

/-- `TextEmbedder.embed` from `embedder.py`: blank text returns the
384-dimensional zero vector; otherwise the text is tokenized, truncated to
512 tokens (`truncation=True, max_length=512`), run through the model, and
mean pooled. -/
def embed (M : HFModel) (text : String) : List ℚ :=
  if isBlank text then List.replicate 384 0
  else meanPool (M.hidden ((M.tokenize text).take 512))

/-- The substitution `text if text and text.strip() else " "` applied to each
batch entry in `TextEmbedder.embed_batch`. -/
def substBlank (t : String) : String :=
  if isBlank t then " " else t

/-- Padding of one tokenized sequence to the batch length (`padding=True`). -/
def padTo (L : Nat) (pt : Nat) (ts : List Nat) : List Nat :=
  ts ++ List.replicate (L - ts.length) pt

/-- Tokenization of a whole batch: blank entries replaced by a single space,
each sequence truncated to 512 tokens. -/
def batchTokens (M : HFModel) (texts : List String) : List (List Nat) :=
  texts.map fun t => (M.tokenize (substBlank t)).take 512

/-- Length every sequence of the batch is padded to (`padding=True` pads to
the longest sequence). -/
def batchMaxLen (M : HFModel) (texts : List String) : Nat :=
  ((batchTokens M texts).map List.length).foldr Nat.max 0

/-- `TextEmbedder.embed_batch` from `embedder.py`: the empty list maps to the
empty list; otherwise each entry (blank entries replaced by a single space)
is tokenized, truncated, padded to the longest sequence of the batch, run
through the model, and mean pooled over all padded positions. -/
def embed_batch (M : HFModel) (texts : List String) : List (List ℚ) :=
  if texts.isEmpty then []
  else ((batchTokens M texts).map (padTo (batchMaxLen M texts) M.padToken)).map
    fun ts => meanPool (M.hidden ts)

/-- Length of a mean-pooled nonempty batch of rows is the common row width. -/
theorem meanPool_length (v : List ℚ) (vs : List (List ℚ)) :
    (meanPool (v :: vs)).length = v.length := by
  show ((List.range v.length).map _).length = v.length
  rw [List.length_map, List.length_range]

/-- A concrete instance of the abstract model, used to evaluate the
definitions on closed inputs: every text tokenizes to the single token `0`,
and every token produces the all-ones hidden row. -/
def demoModel : HFModel where
  tokenize := fun _ => [0]
  padToken := 0
  hidden := fun ts => ts.map fun _ => List.replicate 384 1
  tokenize_ne := fun _ => List.cons_ne_nil 0 []
  hidden_len := fun ts => List.length_map ts _
  hidden_dim := fun ts v hv => by
    rcases List.mem_map.mp hv with ⟨x, hx, rfl⟩
    exact List.length_replicate 384 1

/-- Errors the backing store can raise during a statement, re-raised by the
repository code after logging (`db.py` uses bare `raise` in every handler). -/
inductive DbError where
  | dimensionMismatch
  | undefinedTable
  | negativeLimit
  | constraintViolation
  | connectionLost
deriving DecidableEq

/-- One stored row of the `patient_data_vectors` table (`db.py` lines 38-49):
serial id, required patient and data-type strings, content, the embedding
column, the server-assigned timestamp, and the two optional columns. -/
structure Row where
  id : Nat
  patient_id : String
  data_type : String
  content : String
  embedding : List ℚ
  createdAt : Nat
  doctor_id : Option String
  visit_id : Option String
deriving DecidableEq

/-- The `patient_data_vectors` table: its committed rows and the next value
of the `SERIAL` id sequence (the sequence survives `DELETE`). -/
structure TableState where
  rows : List Row
  nextId : Nat
deriving DecidableEq

/-- Durable state of the database: whether `CREATE EXTENSION vector` has run
and whether the table exists. -/
structure SchemaState where
  hasVectorExt : Bool
  table : Option TableState
deriving DecidableEq

/-- Outcome of the one `psycopg.connect` attempt made per operation. -/
inductive ConnOutcome where
  | ok
  | operationalError
  | otherError
deriving DecidableEq

/-- How one operation of the repository finishes at process level: a normal
return, an exception propagated to the caller, or `sys.exit`. -/
inductive OpResult (α : Type) where
  | ok (a : α)
  | raised (e : DbError)
  | exited (code : Nat)
deriving DecidableEq

/-- Connection lifecycle events of one operation, used to state the
acquire/release discipline. -/
inductive Ev where
  | acquire
  | commit
  | rollback
  | close
deriving DecidableEq

/-- Result of one operation: its process-level result, the database state
after it, and its connection event trace. -/
structure Outcome (α : Type) where
  result : OpResult α
  state : SchemaState
  trace : List Ev
deriving DecidableEq

/-- The module-level guard of `db.py` (lines 10-15): `os.getenv` yields
`none` when the variable is unset, and `if not NEON_DB_URL` fires on both
`None` and the empty string, printing a diagnostic and exiting with status
1. -/
def require_neon_db_url (url : Option String) : OpResult Unit :=
  if (url.getD "").isEmpty then .exited 1 else .ok ()

/-- `get_db_connection` from `db.py`: one connection attempt; on
`psycopg.OperationalError` or any other exception it prints a diagnostic and
calls `sys.exit(1)` instead of raising. -/
def get_db_connection (co : ConnOutcome) : OpResult Unit :=
  match co with
  | .ok => .ok ()
  | .operationalError => .exited 1
  | .otherError => .exited 1

/-- `create_patient_vectors_table` from `db.py`: acquire a connection, run
`CREATE EXTENSION IF NOT EXISTS vector` and `CREATE TABLE IF NOT EXISTS`,
commit; on an exception roll back and re-raise; close in `finally`.  The
parameter `env` injects an environment failure of the statements (such as
loss of connectivity); `IF NOT EXISTS` leaves an existing table untouched. -/
def create_patient_vectors_table (co : ConnOutcome) (env : Option DbError)
    (s : SchemaState) : Outcome Unit :=
  match get_db_connection co with
  | .exited code => ⟨.exited code, s, []⟩
  | .raised e => ⟨.raised e, s, []⟩
  | .ok _ =>
    match env with
    | some e => ⟨.raised e, s, [.acquire, .rollback, .close]⟩
    | none =>
      ⟨.ok (), { hasVectorExt := true, table := some (s.table.getD ⟨[], 1⟩) },
        [.acquire, .commit, .close]⟩

/-- `insert_patient_vector` from `db.py`: acquire a connection, execute the
`INSERT`, commit; on an exception roll back (so the committed table is
unchanged) and re-raise; close in `finally`.  The backend rejects the row
when the embedding length is not 384 (the `vector(384)` column) or when the
table does not exist; `env` injects the remaining failure modes. -/
def insert_patient_vector (co : ConnOutcome) (env : Option DbError) (now : Nat)
    (s : SchemaState) (pid dt c : String) (emb : List ℚ)
    (doc vis : Option String) : Outcome Unit :=
  match get_db_connection co with
  | .exited code => ⟨.exited code, s, []⟩
  | .raised e => ⟨.raised e, s, []⟩
  | .ok _ =>
    match s.table with
    | none => ⟨.raised .undefinedTable, s, [.acquire, .rollback, .close]⟩
    | some t =>
      match env with
      | some e => ⟨.raised e, s, [.acquire, .rollback, .close]⟩
      | none =>
        if emb.length = 384 then
          ⟨.ok (),
            { s with table := some ⟨t.rows ++ [⟨t.nextId, pid, dt, c, emb, now, doc, vis⟩],
                t.nextId + 1⟩ },
            [.acquire, .commit, .close]⟩
        else ⟨.raised .dimensionMismatch, s, [.acquire, .rollback, .close]⟩

/-- The row of the `SELECT` in `query_similar_vectors` (`db.py` line 97):
`patient_id, data_type, content, embedding <=> query AS distance`. -/
def resultTuple (dist : List ℚ → List ℚ → ℚ) (q : List ℚ) (r : Row) :
    String × String × String × ℚ :=
  (r.patient_id, r.data_type, r.content, dist r.embedding q)

/-- The `ORDER BY embedding <=> query` comparison: ascending on the distance
field of the selected tuple. -/
def distOrder (a b : String × String × String × ℚ) : Prop :=
  a.2.2.2 ≤ b.2.2.2

instance : DecidableRel distOrder :=
  fun a b => inferInstanceAs (Decidable (a.2.2.2 ≤ b.2.2.2))

instance : IsTotal (String × String × String × ℚ) distOrder :=
  ⟨fun a b => le_total a.2.2.2 b.2.2.2⟩

instance : IsTrans (String × String × String × ℚ) distOrder :=
  ⟨fun _ _ _ hab hbc => le_trans hab hbc⟩

/-- `query_similar_vectors` from `db.py`: acquire a connection, run the
`SELECT ... ORDER BY embedding <=> query LIMIT top_k`, return the rows; on
an exception re-raise after logging (this function has no rollback); close
in `finally`.  `dist` is the external pgvector `<=>` cosine-distance
operator, abstract here; `top_k` is the Python parameter whose absent value
defaults to 5; PostgreSQL rejects a negative `LIMIT` and returns no rows for
`LIMIT 0`. -/
def query_similar_vectors (dist : List ℚ → List ℚ → ℚ) (co : ConnOutcome)
    (env : Option DbError) (s : SchemaState) (q : List ℚ)
    (top_k : Option Int) : Outcome (List (String × String × String × ℚ)) :=
  match get_db_connection co with
  | .exited code => ⟨.exited code, s, []⟩
  | .raised e => ⟨.raised e, s, []⟩
  | .ok _ =>
    match s.table with
    | none => ⟨.raised .undefinedTable, s, [.acquire, .close]⟩
    | some t =>
      match env with
      | some e => ⟨.raised e, s, [.acquire, .close]⟩
      | none =>
        let k : Int := top_k.getD 5
        if k < 0 then ⟨.raised .negativeLimit, s, [.acquire, .close]⟩
        else
          ⟨.ok ((List.insertionSort distOrder (t.rows.map (resultTuple dist q))).take k.toNat),
            s, [.acquire, .close]⟩

/-- `clear_existing_data` from `main.py` (lines 150-163): acquire a
connection, `DELETE FROM patient_data_vectors`, commit, then close — with no
`try/finally`, so when the statement raises, the function propagates the
exception without ever reaching `conn.close()`, and the uncommitted delete
is discarded. -/
def clear_existing_data (co : ConnOutcome) (env : Option DbError)
    (s : SchemaState) : Outcome Unit :=
  match get_db_connection co with
  | .exited code => ⟨.exited code, s, []⟩
  | .raised e => ⟨.raised e, s, []⟩
  | .ok _ =>
    match s.table with
    | none => ⟨.raised .undefinedTable, s, [.acquire]⟩
    | some t =>
      match env with
      | some e => ⟨.raised e, s, [.acquire]⟩
      | none => ⟨.ok (), { s with table := some ⟨[], t.nextId⟩ }, [.acquire, .commit, .close]⟩

/-- A trace releases every connection it acquired. -/
def releases (tr : List Ev) : Prop :=
  tr.count Ev.acquire = tr.count Ev.close

instance (tr : List Ev) : Decidable (releases tr) :=
  inferInstanceAs (Decidable (_ = _))

/-- Distance instance used to evaluate the store on closed inputs. -/
def distZero : List ℚ → List ℚ → ℚ := fun _ _ => 0

/-- A one-row concrete table used to evaluate the store on closed inputs. -/
def demoTable : TableState :=
  ⟨[⟨1, "patient_001", "chat", "demo", List.replicate 384 0, 0, none, none⟩], 2⟩

/-- A concrete schema state holding `demoTable`. -/
def demoState : SchemaState :=
  ⟨true, some demoTable⟩

/-- Helper: a truncated tokenization is never empty, because the tokenizer
always emits the special tokens and the truncation bound 512 is positive. -/
theorem take512_tokenize_ne (M : HFModel) (t : String) :
    (M.tokenize t).take 512 ≠ [] := by
  intro h
  rcases (List.take_eq_nil_iff).mp h with h' | h'
  · exact absurd h' (by decide)
  · exact M.tokenize_ne t h'

/-- C2: for every empty or whitespace-only input text, `embed` returns the
384-dimensional zero vector without raising; in particular `embed ""` and
`embed "   "` are 384 zeros, and this fallback is taken in no other case —
every non-blank text goes through the model pipeline instead. -/
theorem embed_blank_returns_zero_vector (M : HFModel) (t : String)
    (h : isBlank t = true) :
    embed M t = List.replicate 384 0
  ∧ (embed M t).length = 384
  ∧ embed M "" = List.replicate 384 0
  ∧ embed M "   " = List.replicate 384 0
  ∧ (∀ t' : String, isBlank t' = false →
      embed M t' = meanPool (M.hidden ((M.tokenize t').take 512))) := by
  refine ⟨by simp [embed, h], by simp [embed, h], ?_, ?_, ?_⟩
  · simp [embed, show isBlank "" = true by decide]
  · simp [embed, show isBlank "   " = true by decide]
  · intro t' h'
    simp [embed, h']

/-- Witness for C2 at the concrete blank inputs. -/
theorem embed_blank_returns_zero_vector_witness :
    embed demoModel "" = List.replicate 384 0 :=
  (embed_blank_returns_zero_vector demoModel "" (by decide)).1

/-- C6: for every non-blank input text, `embed` returns a vector of exactly
384 entries, obtained by unweighted mean pooling of the per-token model
outputs; the input is silently truncated to 512 tokens, so two texts whose
tokenizations agree on the first 512 tokens embed identically and no error
is raised for over-long input. -/
theorem embed_nonblank_dim_and_truncation (M : HFModel) (t t' : String)
    (h : isBlank t = false) (h' : isBlank t' = false)
    (hagree : (M.tokenize t).take 512 = (M.tokenize t').take 512) :
    (embed M t).length = 384
  ∧ embed M t = embed M t'
  ∧ ∀ i, i < 384 → (embed M t).getD i 0 =
      ((M.hidden ((M.tokenize t).take 512)).map fun w => w.getD i 0).sum
        / (((M.tokenize t).take 512).length : ℚ) := by
  have hne : (M.tokenize t).take 512 ≠ [] := take512_tokenize_ne M t
  have hhid_ne : M.hidden ((M.tokenize t).take 512) ≠ [] := by
    intro hh
    have hl := M.hidden_len ((M.tokenize t).take 512)
    rw [hh] at hl
    exact hne (List.length_eq_zero.mp hl.symm)
  obtain ⟨v, vs, hv⟩ := List.exists_cons_of_ne_nil hhid_ne
  have hvlen : v.length = 384 := by
    refine M.hidden_dim ((M.tokenize t).take 512) v ?_
    rw [hv]
    exact List.mem_cons_self v vs
  have hembed : embed M t = meanPool (M.hidden ((M.tokenize t).take 512)) := by
    simp [embed, h]
  refine ⟨?_, ?_, ?_⟩
  · rw [hembed, hv, meanPool_length, hvlen]
  · rw [hembed, hagree]
    simp [embed, h']
  · intro i hi
    rw [hembed, hv]
    have hlen : ((M.tokenize t).take 512).length = (v :: vs).length := by
      rw [← hv]
      exact (M.hidden_len _).symm
    rw [hlen]
    simp only [meanPool]
    have hi' : i < v.length := hvlen ▸ hi
    rw [List.getD_eq_getElem _ _ (by simpa using hi'), List.getElem_map, List.getElem_range]

/-- Witness for C6 at two concrete non-blank texts with equal truncated
tokenizations under the concrete model. -/
theorem embed_nonblank_dim_and_truncation_witness :
    (embed demoModel "a").length = 384 ∧ embed demoModel "a" = embed demoModel "b" :=
  ⟨(embed_nonblank_dim_and_truncation demoModel "a" "b" (by decide) (by decide) rfl).1,
   (embed_nonblank_dim_and_truncation demoModel "a" "b" (by decide) (by decide) rfl).2.1⟩

/-- Helper: setting an index of a list to the value it already holds is the
identity. -/
theorem list_set_eq_self {α : Type} (l : List α) (i : Nat) (a : α)
    (h : i < l.length) (ha : l[i] = a) : l.set i a = l := by
  refine List.ext_getElem (by simp) ?_
  intro n h1 h2
  rw [List.getElem_set]
  split
  · next heq => subst heq; exact ha.symm
  · rfl

/-- Helper: evaluation of the batch pipeline of the concrete model on one
blank entry: the entry is replaced by a single space, runs through the
model, and mean pooling of its all-ones hidden row gives the all-ones
vector — not the zero vector of the single-text fallback. -/
theorem embed_batch_demo_blank_entry :
    embed_batch demoModel [""] = [List.replicate 384 (1:ℚ)] := by
  have h1 : embed_batch demoModel [""] = [meanPool [List.replicate 384 (1:ℚ)]] := rfl
  rw [h1]
  congr 1
  simp only [meanPool, List.length_replicate, List.length_cons, List.length_nil,
    List.map_cons, List.map_nil, List.sum_cons, List.sum_nil]
  have h3 : ∀ i ∈ List.range 384,
      ((List.replicate 384 (1:ℚ)).getD i 0 + 0) / ((0 + 1 : ℕ) : ℚ) = (1:ℚ) := by
    intro i hi
    have hi' : i < 384 := List.mem_range.mp hi
    rw [List.getD_eq_getElem _ _ (by simpa using hi'), List.getElem_replicate]
    norm_num
  rw [List.map_congr_left h3, List.map_const', List.length_range]

/-- C4: `embed_batch` of the empty list is the empty list; a non-empty input
yields one embedding per input text in the same order (entry `j` is the
pipeline applied to text `j`); every blank entry is embedded exactly as the
single-space placeholder string, and under the concrete model this is not
the 384-dimensional zero vector that the single-text path returns for blank
input. -/
theorem embed_batch_order_and_placeholder (M : HFModel) (texts : List String)
    (i : Nat) (hi : i < texts.length) (hb : isBlank (texts.getD i "") = true) :
    embed_batch M [] = []
  ∧ (embed_batch M texts).length = texts.length
  ∧ embed_batch M texts = embed_batch M (texts.set i " ")
  ∧ (∀ j, j < texts.length → (embed_batch M texts).getD j [] =
      meanPool (M.hidden (padTo (batchMaxLen M texts) M.padToken
        ((M.tokenize (substBlank (texts.getD j ""))).take 512))))
  ∧ embed_batch demoModel [""] ≠ [List.replicate 384 (0:ℚ)] := by
  have hemp : texts.isEmpty = false := by
    cases texts with
    | nil => simp at hi
    | cons a l => rfl
  have hsub : substBlank (texts.getD i "") = " " := by
    unfold substBlank
    rw [hb]
    rfl
  have hspace : substBlank " " = " " := by decide
  have hbt : batchTokens M (texts.set i " ") = batchTokens M texts := by
    unfold batchTokens
    rw [List.map_set]
    refine list_set_eq_self _ i _ (by simpa using hi) ?_
    rw [List.getElem_map]
    have h1 : substBlank texts[i] = " " := by
      rw [← List.getD_eq_getElem texts "" hi]
      exact hsub
    rw [h1, hspace]
  have hmax : batchMaxLen M (texts.set i " ") = batchMaxLen M texts := by
    unfold batchMaxLen
    rw [hbt]
  have hempset : (texts.set i " ").isEmpty = false := by
    cases texts with
    | nil => simp at hi
    | cons a l => cases i <;> rfl
  refine ⟨rfl, ?_, ?_, ?_, ?_⟩
  · simp [embed_batch, hemp, batchTokens]
  · simp only [embed_batch, hemp, hempset, hbt, hmax, Bool.false_eq_true, if_false]
  · intro j hj
    have hjl : j < (((batchTokens M texts).map (padTo (batchMaxLen M texts) M.padToken)).map
        fun ts => meanPool (M.hidden ts)).length := by
      simp [batchTokens, hj]
    simp only [embed_batch, hemp, Bool.false_eq_true, if_false]
    rw [List.getD_eq_getElem _ _ hjl, List.getElem_map, List.getElem_map]
    unfold batchTokens
    rw [List.getElem_map, ← List.getD_eq_getElem texts "" hj]
  · rw [embed_batch_demo_blank_entry]
    intro hcontra
    have h4 : List.replicate 384 (1:ℚ) = List.replicate 384 (0:ℚ) := by
      injection hcontra
    have h5 : (1:ℚ) = 0 := List.replicate_right_injective (by decide) h4
    norm_num at h5

/-- Witness for C4 at a concrete singleton batch whose only entry is blank. -/
theorem embed_batch_order_and_placeholder_witness :
    (embed_batch demoModel [""]).length = [""].length
  ∧ embed_batch demoModel [""] ≠ [List.replicate 384 (0:ℚ)] :=
  ⟨(embed_batch_order_and_placeholder demoModel [""] 0 (by decide) (by decide)).2.1,
   (embed_batch_order_and_placeholder demoModel [""] 0 (by decide) (by decide)).2.2.2.2⟩

/-- C9: a missing or empty connection string and any failed connection
attempt both end in a printed diagnostic and `sys.exit(1)` — a non-zero
exit; neither path ever propagates an exception to the caller, and every
operation makes at most one connection attempt per call (no retry or
backoff), visible as at most one acquire event per trace. -/
theorem connection_failure_exits (co : ConnOutcome) (h : co ≠ ConnOutcome.ok) :
    get_db_connection co = OpResult.exited 1
  ∧ require_neon_db_url none = OpResult.exited 1
  ∧ require_neon_db_url (some "") = OpResult.exited 1
  ∧ (∀ co' : ConnOutcome, ∀ e : DbError, get_db_connection co' ≠ OpResult.raised e)
  ∧ (∀ url : Option String, ∀ e : DbError, require_neon_db_url url ≠ OpResult.raised e)
  ∧ (∀ env s, (create_patient_vectors_table co env s).trace.count Ev.acquire ≤ 1)
  ∧ (∀ env now s pid dt c emb doc vis,
      (insert_patient_vector co env now s pid dt c emb doc vis).trace.count Ev.acquire ≤ 1)
  ∧ (∀ dist env s q k, (query_similar_vectors dist co env s q k).trace.count Ev.acquire ≤ 1)
  ∧ (∀ env s, (clear_existing_data co env s).trace.count Ev.acquire ≤ 1) := by
  refine ⟨?_, rfl, rfl, ?_, ?_, ?_, ?_, ?_, ?_⟩
  · cases co with
    | ok => exact absurd rfl h
    | operationalError => rfl
    | otherError => rfl
  · intro co' e
    cases co' <;> simp [get_db_connection]
  · intro url e
    unfold require_neon_db_url
    split <;> simp
  · intro env s
    cases co <;> cases env <;>
      simp [create_patient_vectors_table, get_db_connection, List.count_cons]
  · intro env now s pid dt c emb doc vis
    rcases s with ⟨hv, tb⟩
    cases co <;> cases env <;> cases tb <;>
      simp only [insert_patient_vector, get_db_connection] <;>
      first
        | simp [List.count_cons]
        | (split <;> simp [List.count_cons])
  · intro dist env s q k
    rcases s with ⟨hv, tb⟩
    cases co <;> cases env <;> cases tb <;>
      simp only [query_similar_vectors, get_db_connection] <;>
      first
        | simp [List.count_cons]
        | (split <;> simp [List.count_cons])
  · intro env s
    rcases s with ⟨hv, tb⟩
    cases co <;> cases env <;> cases tb <;>
      simp [clear_existing_data, get_db_connection, List.count_cons]

/-- Witness for C9 at a concrete failed connection attempt. -/
theorem connection_failure_exits_witness :
    get_db_connection ConnOutcome.operationalError = OpResult.exited 1 :=
  (connection_failure_exits ConnOutcome.operationalError (by decide)).1

/-- C7: `create_patient_vectors_table` is idempotent: a second run leaves
exactly the state of the first; when extension and table already exist the
run has no effect at all, and in every case it leaves the extension enabled
and the table present, creating an empty table only when it was absent. -/
theorem create_table_idempotent (s : SchemaState) (t : TableState)
    (hext : s.hasVectorExt = true) (htab : s.table = some t) :
    (create_patient_vectors_table ConnOutcome.ok none
        (create_patient_vectors_table ConnOutcome.ok none s).state).state
      = (create_patient_vectors_table ConnOutcome.ok none s).state
  ∧ (create_patient_vectors_table ConnOutcome.ok none s).state = s
  ∧ (∀ s' : SchemaState,
      ((create_patient_vectors_table ConnOutcome.ok none s').state).hasVectorExt = true
      ∧ ∃ t', ((create_patient_vectors_table ConnOutcome.ok none s').state).table = some t')
  ∧ (∀ s' : SchemaState, s'.table = none →
      (create_patient_vectors_table ConnOutcome.ok none s').state
        = ⟨true, some ⟨[], 1⟩⟩) := by
  refine ⟨?_, ?_, ?_, ?_⟩
  · simp [create_patient_vectors_table, get_db_connection]
  · rcases s with ⟨hv, tb⟩
    simp only at hext htab
    subst hext
    subst htab
    simp [create_patient_vectors_table, get_db_connection]
  · intro s'
    refine ⟨rfl, ⟨s'.table.getD ⟨[], 1⟩, rfl⟩⟩
  · intro s' hnone
    simp [create_patient_vectors_table, get_db_connection, hnone]

/-- Witness for C7 at a concrete populated state. -/
theorem create_table_idempotent_witness :
    (create_patient_vectors_table ConnOutcome.ok none demoState).state = demoState :=
  (create_table_idempotent demoState demoTable rfl rfl).2.1

/-- C5: every failing insert is rolled back, leaving the committed table
exactly as it was (no partial commit), and the original error is re-raised
to the caller rather than swallowed: a wrong-dimension embedding raises the
dimension mismatch with the table unchanged, an injected statement failure
(constraint violation, connectivity loss) raises that same error with the
table unchanged, and only the success path commits, appending exactly the
one new row. -/
theorem insert_failure_rolls_back (co : ConnOutcome) (env : Option DbError)
    (now : Nat) (s : SchemaState) (pid dt c : String) (emb : List ℚ)
    (doc vis : Option String) (t : TableState) (ht : s.table = some t) :
    (∀ e, (insert_patient_vector co env now s pid dt c emb doc vis).result = OpResult.raised e →
        (insert_patient_vector co env now s pid dt c emb doc vis).state = s)
  ∧ (emb.length ≠ 384 → env = none → co = ConnOutcome.ok →
      insert_patient_vector co env now s pid dt c emb doc vis =
        ⟨OpResult.raised DbError.dimensionMismatch, s, [Ev.acquire, Ev.rollback, Ev.close]⟩)
  ∧ (∀ e, env = some e → co = ConnOutcome.ok →
      insert_patient_vector co env now s pid dt c emb doc vis =
        ⟨OpResult.raised e, s, [Ev.acquire, Ev.rollback, Ev.close]⟩)
  ∧ (env = none → co = ConnOutcome.ok → emb.length = 384 →
      insert_patient_vector co env now s pid dt c emb doc vis =
        ⟨OpResult.ok (), ⟨s.hasVectorExt,
            some ⟨t.rows ++ [⟨t.nextId, pid, dt, c, emb, now, doc, vis⟩], t.nextId + 1⟩⟩,
          [Ev.acquire, Ev.commit, Ev.close]⟩) := by
  rcases s with ⟨hv, tb⟩
  simp only at ht
  subst ht
  refine ⟨?_, ?_, ?_, ?_⟩
  · intro e
    cases co <;> cases env <;>
      simp only [insert_patient_vector, get_db_connection] <;>
      first
        | simp
        | (split <;> simp)
  · intro hdim henv hco
    subst henv
    subst hco
    simp only [insert_patient_vector, get_db_connection]
    rw [if_neg hdim]
  · intro e henv hco
    subst henv
    subst hco
    simp only [insert_patient_vector, get_db_connection]
  · intro henv hco hdim
    subst henv
    subst hco
    simp only [insert_patient_vector, get_db_connection]
    rw [if_pos hdim]

/-- Witness for C5: inserting an embedding of the wrong dimension into the
concrete one-row store raises the dimension mismatch and leaves the store
unchanged. -/
theorem insert_failure_rolls_back_witness :
    insert_patient_vector ConnOutcome.ok none 7 demoState "p" "d" "c" [] none none =
      ⟨OpResult.raised DbError.dimensionMismatch, demoState, [Ev.acquire, Ev.rollback, Ev.close]⟩ :=
  (insert_failure_rolls_back ConnOutcome.ok none 7 demoState "p" "d" "c" [] none none
    demoTable rfl).2.1 (by decide) rfl rfl

/-- C1: with the table present, a query with positive k succeeds and returns
exactly min(k, N) rows of the N stored rows — never more than k, and all N
of them whenever k exceeds N — ordered by ascending (non-decreasing)
distance between each stored embedding and the query vector. -/
theorem query_nearest_sorted (dist : List ℚ → List ℚ → ℚ) (s : SchemaState)
    (t : TableState) (q : List ℚ) (k : Int) (ht : s.table = some t)
    (hk : 0 < k) :
    ∃ l, (query_similar_vectors dist ConnOutcome.ok none s q (some k)).result = OpResult.ok l
      ∧ l.length = min k.toNat t.rows.length
      ∧ l.length ≤ k.toNat
      ∧ (t.rows.length ≤ k.toNat → l.length = t.rows.length)
      ∧ l.Pairwise (fun a b => a.2.2.2 ≤ b.2.2.2) := by
  have hnk : ¬ (k < 0) := by omega
  have hlen : (List.insertionSort distOrder (t.rows.map (resultTuple dist q))).length
      = t.rows.length := by
    rw [(List.perm_insertionSort distOrder _).length_eq, List.length_map]
  refine ⟨(List.insertionSort distOrder (t.rows.map (resultTuple dist q))).take k.toNat,
    ?_, ?_, ?_, ?_, ?_⟩
  · simp [query_similar_vectors, get_db_connection, ht, hnk]
  · rw [List.length_take, hlen]
  · rw [List.length_take, hlen]
    omega
  · intro hle
    rw [List.length_take, hlen]
    omega
  · exact List.Pairwise.sublist (List.take_sublist _ _)
      (List.sorted_insertionSort distOrder _)

/-- Witness for C1 on the concrete one-row store with k = 2. -/
theorem query_nearest_sorted_witness :
    ∃ l, (query_similar_vectors distZero ConnOutcome.ok none demoState [] (some 2)).result
        = OpResult.ok l
      ∧ l.length = min (2:Int).toNat demoTable.rows.length
      ∧ l.length ≤ (2:Int).toNat
      ∧ (demoTable.rows.length ≤ (2:Int).toNat → l.length = demoTable.rows.length)
      ∧ l.Pairwise (fun a b => a.2.2.2 ≤ b.2.2.2) :=
  query_nearest_sorted distZero demoState demoTable [] 2 rfl (by decide)

/-- C10: every row a successful query returns is exactly the four-field
tuple (patient id, data type, content, distance of the stored embedding to
the query vector) of some stored row — it carries neither the embedding
itself, nor the serial id, timestamp, or the optional doctor and visit
columns. -/
theorem query_result_fields (dist : List ℚ → List ℚ → ℚ) (co : ConnOutcome)
    (env : Option DbError) (s : SchemaState) (t : TableState) (q : List ℚ)
    (top_k : Option Int) (l : List (String × String × String × ℚ))
    (ht : s.table = some t)
    (hres : (query_similar_vectors dist co env s q top_k).result = OpResult.ok l) :
    ∀ x ∈ l, ∃ r ∈ t.rows,
      x = (r.patient_id, r.data_type, r.content, dist r.embedding q) := by
  cases co <;> simp only [query_similar_vectors, get_db_connection, ht] at hres <;>
    try exact absurd hres (by simp)
  cases env with
  | some e => exact absurd hres (by simp)
  | none =>
    by_cases hneg : (top_k.getD 5 : Int) < 0
    · rw [if_pos hneg] at hres
      exact absurd hres (by simp)
    · rw [if_neg hneg] at hres
      simp only [OpResult.ok.injEq] at hres
      subst hres
      intro x hx
      have hx1 : x ∈ List.insertionSort distOrder (t.rows.map (resultTuple dist q)) :=
        (List.take_sublist _ _).subset hx
      have hx2 : x ∈ t.rows.map (resultTuple dist q) :=
        ((List.perm_insertionSort distOrder _).mem_iff).mp hx1
      rcases List.mem_map.mp hx2 with ⟨r, hr, rfl⟩
      exact ⟨r, hr, rfl⟩

/-- Witness for C10 on the concrete one-row store: its single result row is
the four-field projection of a stored row. -/
theorem query_result_fields_witness :
    ∃ r ∈ demoTable.rows,
      ("patient_001", "chat", "demo", (0:ℚ))
        = (r.patient_id, r.data_type, r.content, distZero r.embedding []) :=
  query_result_fields distZero ConnOutcome.ok none demoState demoTable [] (some 5)
    [("patient_001", "chat", "demo", (0:ℚ))] rfl rfl
    ("patient_001", "chat", "demo", (0:ℚ)) (List.mem_singleton.mpr rfl)

/-- C3 counterexample: the claim that a non-positive k falls back to the
default of 5 is false — with one stored row, a supplied k = 0 is forwarded
to the backend as `LIMIT 0` and returns no rows, while the claimed fallback
to 5 returns the stored row. -/
theorem query_topk_zero_not_defaulted :
    (query_similar_vectors distZero ConnOutcome.ok none demoState [] (some 0)).result
      = OpResult.ok []
  ∧ (query_similar_vectors distZero ConnOutcome.ok none demoState [] (some 5)).result
      = OpResult.ok [("patient_001", "chat", "demo", (0:ℚ))] := by
  constructor <;> rfl

/-- C3 amended: k must be a positive integer and the fixed default of 5 is
used only when k is absent (the Python default parameter); a supplied
non-positive k is passed through unchanged to the backend, so k = 0 returns
zero rows and a negative k raises the backend error for a negative LIMIT
instead of being replaced by the default. -/
theorem query_topk_default_only_when_absent (dist : List ℚ → List ℚ → ℚ)
    (co : ConnOutcome) (env : Option DbError) (s : SchemaState) (q : List ℚ)
    (t : TableState) (ht : s.table = some t) (k : Int) (hk : k < 0) :
    query_similar_vectors dist co env s q none
      = query_similar_vectors dist co env s q (some 5)
  ∧ (query_similar_vectors dist ConnOutcome.ok none s q (some 0)).result = OpResult.ok []
  ∧ (query_similar_vectors dist ConnOutcome.ok none s q (some k)).result
      = OpResult.raised DbError.negativeLimit := by
  refine ⟨rfl, ?_, ?_⟩
  · simp [query_similar_vectors, get_db_connection, ht]
  · simp [query_similar_vectors, get_db_connection, ht, hk]

/-- Witness for the amended C3 on the concrete one-row store with k = -1. -/
theorem query_topk_default_only_when_absent_witness :
    query_similar_vectors distZero ConnOutcome.ok none demoState [] none
      = query_similar_vectors distZero ConnOutcome.ok none demoState [] (some 5)
  ∧ (query_similar_vectors distZero ConnOutcome.ok none demoState [] (some 0)).result
      = OpResult.ok []
  ∧ (query_similar_vectors distZero ConnOutcome.ok none demoState [] (some (-1))).result
      = OpResult.raised DbError.negativeLimit :=
  query_topk_default_only_when_absent distZero ConnOutcome.ok none demoState []
    demoTable rfl (-1) (by decide)

/-- C8 counterexample: the claim that every store operation releases its
connection on every exit path is false — `clear_existing_data` hit by an
error during its DELETE statement returns with the acquired connection
never closed. -/
theorem clear_error_leaks_connection :
    ¬ releases (clear_existing_data ConnOutcome.ok (some DbError.connectionLost)
        demoState).trace := by
  intro h
  have h' : (1 : Nat) = 0 := h
  exact absurd h' (by decide)

/-- C8 amended: schema creation, insert, and nearest query acquire one
connection and release it on every exit path (their close runs in a finally
block); the bulk clear in `main.py` releases its connection only on the
success path, and leaks it whenever the DELETE raises. -/
theorem connection_release_discipline (co : ConnOutcome) (env : Option DbError)
    (now : Nat) (s : SchemaState) (pid dt c : String) (emb : List ℚ)
    (doc vis : Option String) (dist : List ℚ → List ℚ → ℚ) (q : List ℚ)
    (k : Option Int) :
    releases (create_patient_vectors_table co env s).trace
  ∧ releases (insert_patient_vector co env now s pid dt c emb doc vis).trace
  ∧ releases (query_similar_vectors dist co env s q k).trace
  ∧ ((clear_existing_data co env s).result = OpResult.ok () →
      releases (clear_existing_data co env s).trace)
  ∧ (∀ e, (clear_existing_data co env s).result = OpResult.raised e →
      ¬ releases (clear_existing_data co env s).trace) := by
  rcases s with ⟨hv, tb⟩
  refine ⟨?_, ?_, ?_, ?_, ?_⟩
  · cases co <;> cases env <;>
      simp [create_patient_vectors_table, get_db_connection, releases, List.count_cons]
  · cases co <;> cases env <;> cases tb <;>
      simp only [insert_patient_vector, get_db_connection] <;>
      first
        | (split <;> simp [releases, List.count_cons])
        | simp [releases, List.count_cons]
  · cases co <;> cases env <;> cases tb <;>
      simp only [query_similar_vectors, get_db_connection] <;>
      first
        | (split <;> simp [releases, List.count_cons])
        | simp [releases, List.count_cons]
  · cases co <;> cases env <;> cases tb <;>
      simp only [clear_existing_data, get_db_connection] <;>
      intro h <;>
      first
        | exact OpResult.noConfusion h
        | simp [releases, List.count_cons]
  · intro e
    cases co <;> cases env <;> cases tb <;>
      simp only [clear_existing_data, get_db_connection] <;>
      intro h <;>
      first
        | exact OpResult.noConfusion h
        | simp [releases, List.count_cons]

/-- Witness for the amended C8 at a concrete successful run of every
operation. -/
theorem connection_release_discipline_witness :
    releases (create_patient_vectors_table ConnOutcome.ok none demoState).trace
  ∧ releases (clear_existing_data ConnOutcome.ok none demoState).trace :=
  ⟨(connection_release_discipline ConnOutcome.ok none 0 demoState "p" "d" "c" []
      none none distZero [] none).1,
   (connection_release_discipline ConnOutcome.ok none 0 demoState "p" "d" "c" []
      none none distZero [] none).2.2.2.1 rfl⟩
